import Mathlib

/-!
# Verification of the MCP-agent playground scripts

Shallow embedding of the six Python scripts of the repository
(`mcp-github-agent.py`, `mcp-sql-agent.py`, `test-github-agent.py`,
`test-sql-agent.py`, `chat-with-github-agent.py`, `chat-with-sql-agent.py`),
covering the run-status polling loops with tool-approval auto-submission,
agent lookup by name, Key Vault / API-key handling, the interactive chat
command dispatch, and the process exit codes.

External services (the agent-hosting API, the secret store, the console)
are modelled as explicit inputs: the status returned by each `runs.get`
call, the pending tool calls attached to a `requires_action` state, the
secret-store contents, and the console lines are parameters, and the
side effects performed on the services are collected into event traces.
-/

namespace McpAgents

/-- Run status as used by the scripts: the string values of `run.status`
compared against in the polling loops. -/
inductive RunStatus
  | queued
  | in_progress
  | requires_action
  | completed
  | failed
  | cancelled
  | expired
deriving DecidableEq, Repr

/-- A pending tool call found in `run.required_action.submit_tool_approval.tool_calls`
(resp. `submit_mcp_tool_approval.required_mcp_tool_calls`).  `isMcp` records
whether `isinstance(tool_call, RequiredMcpToolCall)` holds. -/
structure ToolCall where
  id : String
  name : String
  arguments : String
  isMcp : Bool
deriving DecidableEq, Repr

/-- A `ToolApproval(...)` record as built by the scripts (the
`tool_call_id=`/`call_id=` keyword, `approve=True`, and the headers
attached, when any). -/
structure ToolApproval where
  toolCallId : String
  approve : Bool
  headers : List (String × String)
deriving DecidableEq, Repr

/-- The hosting service as seen by one polling invocation: the status
returned by `runs.get` on the iteration in which `attempt` has just been
incremented to `n`, the tool calls attached when that status is
`requires_action`, and whether the `required_action` object has the shape
the script tests for (`isinstance(run.required_action, SubmitToolApprovalAction)`
in the test scripts, `run.required_action` truthy plus the `hasattr` check
in the chat scripts). -/
structure PollEnv where
  statusAt : Nat → RunStatus
  callsAt : Nat → List ToolCall
  hasApprovalAction : Nat → Bool

/-- Side effects one polling loop performs on the hosting service. -/
inductive PollEvent
  | getRun (attempt : Nat)
  | submitApprovals (approvals : List ToolApproval)
  | cancelRun
deriving DecidableEq, Repr

/-- How the loop exited: the `while` condition became false on a terminal
status, the empty-tool-calls anomaly branch ran `cancel` and `break`, or
the `attempt >= max_attempts` check fired. -/
inductive PollExit
  | statusExit
  | anomalyCancel
  | timeout
deriving DecidableEq, Repr

/-- The outcome of one polling invocation: the status held by the local
`run` variable when the loop ended, the final value of `attempt`, the
events performed on the service, and which exit was taken. -/
structure PollResult where
  finalStatus : RunStatus
  attempts : Nat
  events : List PollEvent
  exitKind : PollExit
deriving DecidableEq, Repr

/-- Events and control outcome of one loop-body pass (everything between
one `runs.get` and the next), for the three `while run.status in [...]`
loops.  `anomaly` records that the empty-tool-calls branch ran
(cancel followed by `break`). -/
structure IterResult where
  events : List PollEvent
  anomaly : Bool
deriving DecidableEq, Repr

/-- `run.status in ["queued", "in_progress", "requires_action"]`: the
`while` condition of the polling loops in `test-github-agent.py:203`,
`test-sql-agent.py:204` and `chat-with-sql-agent.py:209`. -/
def isActive (s : RunStatus) : Bool :=
  s = RunStatus.queued || s = RunStatus.in_progress || s = RunStatus.requires_action

/-- Loop body of `test-github-agent.py:206-242` and (identically)
`test-sql-agent.py:207-243`: fetch the run; on `requires_action` with a
`SubmitToolApprovalAction`, cancel and break when `tool_calls` is empty,
otherwise build one `ToolApproval` per `RequiredMcpToolCall` (carrying
`mcp_tool.headers`) and submit the batch when it is non-empty. -/
def testIter (env : PollEnv) (headers : List (String × String)) (attempt : Nat) :
    IterResult :=
  let s := env.statusAt attempt
  if s = RunStatus.requires_action && env.hasApprovalAction attempt then
    let calls := env.callsAt attempt
    if calls.isEmpty then
      { events := [.getRun attempt, .cancelRun], anomaly := true }
    else
      let approvals := (calls.filter (fun c => c.isMcp)).map
        (fun c => { toolCallId := c.id, approve := true, headers := headers : ToolApproval })
      if approvals.isEmpty then
        { events := [.getRun attempt], anomaly := false }
      else
        { events := [.getRun attempt, .submitApprovals approvals], anomaly := false }
  else
    { events := [.getRun attempt], anomaly := false }

/-- Loop body of `chat-with-sql-agent.py:210-253`: fetch the run; on
`requires_action` with the `submit_tool_approval` attribute present,
cancel and break when `tool_calls` is empty, otherwise submit one
`ToolApproval` per tool call (all of them, with `mcp_tool.headers`). -/
def chatSqlIter (env : PollEnv) (headers : List (String × String)) (attempt : Nat) :
    IterResult :=
  let s := env.statusAt attempt
  if s = RunStatus.requires_action && env.hasApprovalAction attempt then
    let calls := env.callsAt attempt
    if calls.isEmpty then
      { events := [.getRun attempt, .cancelRun], anomaly := true }
    else
      let approvals := calls.map
        (fun c => { toolCallId := c.id, approve := true, headers := headers : ToolApproval })
      { events := [.getRun attempt, .submitApprovals approvals], anomaly := false }
  else
    { events := [.getRun attempt], anomaly := false }

/-- The shared `while run.status in [...]` skeleton of
`test-github-agent.py:199-246`, `test-sql-agent.py:200-247` and
`chat-with-sql-agent.py:205-257`:

```
attempt = 0
while run.status in ["queued", "in_progress", "requires_action"]:
    time.sleep(1); attempt += 1
    run = agents_client.runs.get(...)
    <body: iter attempt — may cancel-and-break on an empty episode>
    if attempt >= max_attempts: break
```

`fuel` bounds the number of iterations the embedding is willing to unfold;
`none` means the loop did not finish within `fuel` iterations.  The
iteration events produced by `iter` include the `getRun` fetch. -/
def pollLoopFuel (iter : Nat → IterResult) (statusAt : Nat → RunStatus)
    (maxAttempts : Nat) : Nat → Nat → RunStatus → Option PollResult
  | 0, attempt, status =>
    if isActive status then none
    else
      some { finalStatus := status, attempts := attempt, events := [],
             exitKind := .statusExit }
  | fuel + 1, attempt, status =>
    if isActive status then
      if (iter (attempt + 1)).anomaly then
        some { finalStatus := statusAt (attempt + 1), attempts := attempt + 1,
               events := (iter (attempt + 1)).events, exitKind := .anomalyCancel }
      else if maxAttempts ≤ attempt + 1 then
        some { finalStatus := statusAt (attempt + 1), attempts := attempt + 1,
               events := (iter (attempt + 1)).events, exitKind := .timeout }
      else
        match pollLoopFuel iter statusAt maxAttempts fuel (attempt + 1)
            (statusAt (attempt + 1)) with
        | none => none
        | some r =>
          some { finalStatus := r.finalStatus, attempts := r.attempts,
                 events := (iter (attempt + 1)).events ++ r.events,
                 exitKind := r.exitKind }
    else
      some { finalStatus := status, attempts := attempt, events := [],
             exitKind := .statusExit }

/-- The polling loop of `test-github-agent.py:199-246` (and identically
`test-sql-agent.py:200-247`), entered with the status of the freshly
created run; `max_attempts = 60` in both scripts. -/
def testAgentPoll (env : PollEnv) (headers : List (String × String))
    (initialStatus : RunStatus) : Option PollResult :=
  pollLoopFuel (testIter env headers) env.statusAt 60 60 0 initialStatus

/-- The polling loop of `chat-with-sql-agent.py:205-257`;
`max_attempts = 60`. -/
def chatSqlPoll (env : PollEnv) (headers : List (String × String))
    (initialStatus : RunStatus) : Option PollResult :=
  pollLoopFuel (chatSqlIter env headers) env.statusAt 60 60 0 initialStatus

/-! ### `wait_for_run_completion` of `chat-with-github-agent.py:56-99`

```
attempt = 0; max_attempts = 120
while True:
    time.sleep(1); attempt += 1
    run = agents_client.runs.get(...)
    if run.status == "completed": return run
    elif run.status == "failed": return run
    elif run.status == "requires_action":
        if run.required_action and hasattr(..., 'submit_mcp_tool_approval'):
            approve every required_mcp_tool_call (call_id=, approve=True)
            and submit the batch — even when it is empty
    elif run.status in ["cancelled", "expired"]: return run
    if attempt >= max_attempts: return run
```

No cancel is ever issued and an empty `requires_action` episode still
produces one (empty) submission. -/

/-- Service calls of one `wait_for_run_completion` iteration with a
non-terminal status: the `runs.get` fetch, plus — when the status is
`requires_action` and the approval attribute is present — the one
`submit_tool_approval` call approving every `required_mcp_tool_call`
(`chat-with-github-agent.py:76-92`; the batch may be empty). -/
def chatGithubEvents (env : PollEnv) (a : Nat) : List PollEvent :=
  if env.statusAt a = RunStatus.requires_action && env.hasApprovalAction a then
    [PollEvent.getRun a,
     PollEvent.submitApprovals ((env.callsAt a).map
       (fun c => { toolCallId := c.id, approve := true, headers := [] : ToolApproval }))]
  else
    [PollEvent.getRun a]

/-- `env.statusAt a` is one of the four statuses on which
`wait_for_run_completion` returns from inside the loop. -/
def chatGithubTerminal (env : PollEnv) (a : Nat) : Bool :=
  env.statusAt a = RunStatus.completed || env.statusAt a = RunStatus.failed ||
    env.statusAt a = RunStatus.cancelled || env.statusAt a = RunStatus.expired

def chatGithubLoopFuel (env : PollEnv) (maxAttempts : Nat) :
    Nat → Nat → Option PollResult
  | 0, _ => none
  | fuel + 1, attempt =>
    if chatGithubTerminal env (attempt + 1) then
      some { finalStatus := env.statusAt (attempt + 1), attempts := attempt + 1,
             events := [.getRun (attempt + 1)], exitKind := .statusExit }
    else if maxAttempts ≤ attempt + 1 then
      some { finalStatus := env.statusAt (attempt + 1), attempts := attempt + 1,
             events := chatGithubEvents env (attempt + 1), exitKind := .timeout }
    else
      match chatGithubLoopFuel env maxAttempts fuel (attempt + 1) with
      | none => none
      | some r =>
        some { finalStatus := r.finalStatus, attempts := r.attempts,
               events := chatGithubEvents env (attempt + 1) ++ r.events,
               exitKind := r.exitKind }

/-- `wait_for_run_completion(agents_client, thread_id, run_id)` of
`chat-with-github-agent.py:56-99`, with its `max_attempts = 120`. -/
def wait_for_run_completion (env : PollEnv) : Option PollResult :=
  chatGithubLoopFuel env 120 120 0

/-- The attempt numbers at which the loop fetched the run status, in
trace order. -/
def fetchAttempts (events : List PollEvent) : List Nat :=
  events.filterMap (fun e => match e with
    | .getRun n => some n
    | _ => none)

/-- The approval batches submitted to the service, in trace order. -/
def submittedBatches (events : List PollEvent) : List (List ToolApproval) :=
  events.filterMap (fun e => match e with
    | .submitApprovals approvals => some approvals
    | _ => none)

/-- How many `runs.cancel` calls the trace contains. -/
def cancelCount (events : List PollEvent) : Nat :=
  (events.filter (fun e => e = PollEvent.cancelRun)).length

/-- Events of an optional poll result (empty when the loop did not finish
within its fuel). -/
def pollEventsOf : Option PollResult → List PollEvent
  | none => []
  | some r => r.events

/-- Final `attempt` value of an optional poll result. -/
def pollAttemptsOf : Option PollResult → Nat
  | none => 0
  | some r => r.attempts

/-- Exit kind of an optional poll result. -/
def pollExitOf : Option PollResult → Option PollExit
  | none => none
  | some r => some r.exitKind

/-- Final status of an optional poll result. -/
def pollStatusOf : Option PollResult → Option RunStatus
  | none => none
  | some r => some r.finalStatus

/-! ## Agent lookup by name

`find_agent_by_name` is defined identically in `mcp-github-agent.py:35-45`
and `mcp-sql-agent.py:86-96`.  The `agents_client.list()` call may raise;
the function's `except` clause prints a warning and returns `None`. -/

/-- One entry of the `agents_client.list()` result: the fields the lookup
reads. -/
structure AgentInfo where
  id : String
  name : String
deriving DecidableEq, Repr

/-- The `for agent in agents: if agent.name == agent_name: return agent.id`
scan (`mcp-github-agent.py:39-42`). -/
def findAgentLoop : List AgentInfo → String → Option String
  | [], _ => none
  | a :: rest, n => if a.name = n then some a.id else findAgentLoop rest n

/-- `find_agent_by_name(agents_client, agent_name)` from
`mcp-github-agent.py:35-45` / `mcp-sql-agent.py:86-96`.  The argument is
the outcome of the `agents_client.list()` call: a listing, or the
exception it raised; on an exception the function returns `None`. -/
def find_agent_by_name (listResult : Except String (List AgentInfo))
    (agentName : String) : Option String :=
  match listResult with
  | .error _ => none
  | .ok agents => findAgentLoop agents agentName

/-! ## Key Vault access and the X-API-Key header -/

/-- The secret store: `SecretClient(vault_url=...).get_secret(name)`,
keyed by vault name and secret name; `.error` is the exception the call
raised. -/
def SecretStore : Type := String → String → Except String String

/-- The configuration fields `mcp-sql-agent.py` reads for API-key
acquisition: `agents.sql.mcpServer.authType`,
`infrastructure.mcp.keyVault.name` (a `.get`, hence optional) and
`infrastructure.mcp.keyVault.apiKeySecretName` (a `.get` with default
`"mcp-api-key"`). -/
structure SqlDeployCfg where
  authType : String
  keyVaultName : Option String
  apiKeySecretName : Option String
deriving DecidableEq, Repr

/-- Python truthiness of an optional string: `None` and `""` are falsy
(`if not key_vault_name: raise ValueError(...)`). -/
def strTruthy : Option String → Bool
  | none => false
  | some s => !(s = "")

/-- The `get_secret` calls `mcp-sql-agent.py:125-146` performs, as
(vault name, secret name) pairs: only when `authType == "apiKey"` and the
vault name is configured does `get_mcp_api_key_from_keyvault`
(`mcp-sql-agent.py:56-83`) reach its `secret_client.get_secret(secret_name)`
call. -/
def sqlDeployVaultCalls (cfg : SqlDeployCfg) : List (String × String) :=
  if cfg.authType = "apiKey" then
    match cfg.keyVaultName with
    | none => []
    | some v => if v = "" then [] else [(v, cfg.apiKeySecretName.getD "mcp-api-key")]
  else []

/-- The `api_key` value `mcp-sql-agent.py:125-146` ends up with:
`None` when `authType != "apiKey"`; an error (leading to `return 1`) when
the vault name is missing (`ValueError`) or the secret retrieval raised
(wrapped in a `RuntimeError`); otherwise the secret's value. -/
def sqlDeployApiKey (cfg : SqlDeployCfg) (store : SecretStore) :
    Except String (Option String) :=
  if cfg.authType = "apiKey" then
    match cfg.keyVaultName with
    | none => .error "Key Vault name not found in config.json"
    | some v =>
      if v = "" then .error "Key Vault name not found in config.json"
      else
        match store v (cfg.apiKeySecretName.getD "mcp-api-key") with
        | .error e => .error e
        | .ok key => .ok (some key)
  else .ok none

/-- `McpTool` starts with no headers; `if api_key:
mcp_tool.update_headers("X-API-Key", api_key)` (`mcp-sql-agent.py:186-188`,
`test-sql-agent.py:148-150`, `chat-with-sql-agent.py:144-146`) adds the
header only when the key is truthy (not `None`, not `""`). -/
def mcpHeadersAfterSetup (apiKey : Option String) : List (String × String) :=
  match apiKey with
  | none => []
  | some k => if k = "" then [] else [("X-API-Key", k)]

/-- The configuration fields `chat-with-sql-agent.py:124-137` reads:
`infrastructure.mcp.keyVault.name` and
`infrastructure.mcp.keyVault.apiKeySecretName` (plain indexing), plus the
agent's `mcpServer.authType`, which is present in the configuration but
never consulted by this script. -/
structure ChatSqlCfg where
  authType : String
  keyVaultName : String
  apiKeySecretName : String
deriving DecidableEq, Repr

/-- The `get_secret` calls `chat-with-sql-agent.py:124-137` performs:
`secret_client.get_secret(secret_name)` runs unconditionally, with no
test of `authType` anywhere in the script. -/
def chatSqlVaultCalls (cfg : ChatSqlCfg) : List (String × String) :=
  [(cfg.keyVaultName, cfg.apiKeySecretName)]

/-- The `api_key` value of `chat-with-sql-agent.py:135-137`: the secret's
value, or the exception (caught by the outer handler, `return 1`). -/
def chatSqlApiKey (cfg : ChatSqlCfg) (store : SecretStore) :
    Except String (Option String) :=
  match store cfg.keyVaultName cfg.apiKeySecretName with
  | .error e => .error e
  | .ok key => .ok (some key)

/-! ## Interactive chat dispatch

The per-line dispatch of the chat loops of
`chat-with-github-agent.py:197-237` and `chat-with-sql-agent.py:163-202`,
which is identical in both: strip the line; skip empty input; `quit` /
`exit` / `bye` end the session; `help` only prints; `clear` creates a new
thread; anything else creates a message and a run on the current thread.

`threads.create()` is a hosting-service call outside this repository.
Modelled from the spec: per §3 thread ids are opaque identifiers issued
by the hosting service, and the §8 `clear` scenario states the newly
created thread id is distinct from the previous one — embodied here as a
strictly increasing fresh-id counter `nextThreadId` owned by the service
model. -/

/-- Python's `str.strip()`: drop leading and trailing whitespace. -/
def pyStrip (s : String) : String :=
  ⟨(((s.data.dropWhile Char.isWhitespace).reverse).dropWhile Char.isWhitespace).reverse⟩

/-- Python's `str.lower()`: lower-case every character. -/
def pyLower (s : String) : String :=
  ⟨s.data.map Char.toLower⟩

/-- Chat-loop state: the current thread id, the service's fresh-id
counter, and `message_count` (tracked by `chat-with-github-agent.py`,
reset to 0 by `clear`). -/
structure ChatState where
  threadId : Nat
  nextThreadId : Nat
  messageCount : Nat
deriving DecidableEq, Repr

/-- Hosting-service calls a chat-loop pass performs. -/
inductive ChatEvent
  | threadCreate (tid : Nat)
  | messageCreate (tid : Nat) (content : String)
  | runCreate (tid : Nat)
deriving DecidableEq, Repr

/-- Outcome of one chat-loop pass: the updated state, the service calls
made, and whether the session ended. -/
structure ChatStepResult where
  state : ChatState
  events : List ChatEvent
  quit : Bool
deriving DecidableEq, Repr

/-- One pass of the chat loop on one console line
(`chat-with-github-agent.py:199-234`, `chat-with-sql-agent.py:166-202`). -/
def chatStep (st : ChatState) (line : String) : ChatStepResult :=
  let input := pyStrip line
  if input = "" then
    { state := st, events := [], quit := false }
  else if pyLower input = "quit" || pyLower input = "exit" || pyLower input = "bye" then
    { state := st, events := [], quit := true }
  else if pyLower input = "help" then
    { state := st, events := [], quit := false }
  else if pyLower input = "clear" then
    { state := { threadId := st.nextThreadId, nextThreadId := st.nextThreadId + 1,
                 messageCount := 0 },
      events := [.threadCreate st.nextThreadId], quit := false }
  else
    { state := { st with messageCount := st.messageCount + 1 },
      events := [.messageCreate st.threadId input, .runCreate st.threadId],
      quit := false }

/-- A whole console session: fold `chatStep` over the input lines,
stopping when a quit command is seen. -/
def chatSession (st : ChatState) : List String → List ChatEvent
  | [] => []
  | line :: rest =>
    let r := chatStep st line
    if r.quit then r.events
    else r.events ++ chatSession r.state rest

/-! ## Process exit codes

Each script ends with `sys.exit(main())`.  An exception escaping `main`
also makes the interpreter exit with status 1, so both paths are folded
into one exit-code function per script, over the outcomes of the external
calls the script makes. -/

/-- Exit code of `test-github-agent.py` / `test-sql-agent.py` `main`
(identical structure): configuration failure → 1 (`return 1`); a failed
client construction or any exception inside the `try` → 1; agent not
found → 1; otherwise 0 exactly when every scenario's final run status is
`completed` (`test-github-agent.py:305-326`). -/
def testAgentExit (configOk : Bool) (connectOk : Bool) (runExn : Bool)
    (agentFound : Option String) (scenarioStatuses : List RunStatus) : Nat :=
  if !configOk then 1
  else if !connectOk then 1
  else if runExn then 1
  else
    match agentFound with
    | none => 1
    | some _ =>
      let successful := (scenarioStatuses.filter (fun s => s = RunStatus.completed)).length
      if successful = scenarioStatuses.length then 0 else 1

/-- Exit code of `mcp-github-agent.py` `main`: configuration failure → 1;
client-construction failure or an exception inside the `try` → 1; when an
existing agent is found and the operator answers `n` the script prints
"Operation cancelled." and returns 0; all remaining paths return 0
(`mcp-github-agent.py:48-167`). -/
def deployGithubExit (configOk : Bool) (connectOk : Bool) (exn : Bool)
    (existingAgent : Option String) (updateReply : String) : Nat :=
  if !configOk then 1
  else if !connectOk then 1
  else if exn then 1
  else
    match existingAgent with
    | some _ => if pyLower (pyStrip updateReply) = "n" then 0 else 0
    | none => 0

/-- Exit code of `mcp-sql-agent.py` `main`: configuration failure → 1;
`authType == "apiKey"` with a failed Key Vault retrieval → 1
(`mcp-sql-agent.py:125-146`); client-construction failure or an exception
inside the `try` → 1; the decline path and all success paths return 0. -/
def deploySqlExit (configOk : Bool) (authType : String) (vaultOk : Bool)
    (connectOk : Bool) (exn : Bool) (existingAgent : Option String)
    (updateReply : String) : Nat :=
  if !configOk then 1
  else if authType = "apiKey" && !vaultOk then 1
  else if !connectOk then 1
  else if exn then 1
  else
    match existingAgent with
    | some _ => if pyLower (pyStrip updateReply) = "n" then 0 else 0
    | none => 0

/-- Exit code of `chat-with-github-agent.py` `main`: configuration
failure → 1; connection failure → 1 (`chat-with-github-agent.py:153-161`);
a session-level exception → 1; agent not found → 1; a normally ended chat
session → 0 (run-level failures inside the loop are caught and the loop
continues). -/
def chatGithubExit (configOk : Bool) (connectOk : Bool) (sessionExn : Bool)
    (agentFound : Option String) : Nat :=
  if !configOk then 1
  else if !connectOk then 1
  else if sessionExn then 1
  else
    match agentFound with
    | none => 1
    | some _ => 0

/-- Exit code of `chat-with-sql-agent.py` `main`: configuration
failure → 1; a failed client construction escapes `main` (interpreter
exit 1); agent not found → 1; a Key Vault failure or any other exception
inside the `try` is caught by the outer handler → 1
(`chat-with-sql-agent.py:326-329`); a normally ended session → 0. -/
def chatSqlExit (configOk : Bool) (connectOk : Bool) (agentFound : Option String)
    (vaultOk : Bool) (sessionExn : Bool) : Nat :=
  if !configOk then 1
  else if !connectOk then 1
  else
    match agentFound with
    | none => 1
    | some _ =>
      if !vaultOk then 1
      else if sessionExn then 1
      else 0

/-! ## Trace helper lemmas -/

theorem fetchAttempts_append (l₁ l₂ : List PollEvent) :
    fetchAttempts (l₁ ++ l₂) = fetchAttempts l₁ ++ fetchAttempts l₂ := by
  simp [fetchAttempts]

theorem cancelCount_append (l₁ l₂ : List PollEvent) :
    cancelCount (l₁ ++ l₂) = cancelCount l₁ + cancelCount l₂ := by
  simp [cancelCount]

theorem testIter_fetchAttempts (env : PollEnv) (headers : List (String × String))
    (a : Nat) : fetchAttempts (testIter env headers a).events = [a] := by
  simp only [testIter]
  split
  · split
    · simp [fetchAttempts]
    · split <;> simp [fetchAttempts]
  · simp [fetchAttempts]

theorem chatSqlIter_fetchAttempts (env : PollEnv) (headers : List (String × String))
    (a : Nat) : fetchAttempts (chatSqlIter env headers a).events = [a] := by
  simp only [chatSqlIter]
  split
  · split <;> simp [fetchAttempts]
  · simp [fetchAttempts]

theorem chatGithubEvents_fetchAttempts (env : PollEnv) (a : Nat) :
    fetchAttempts (chatGithubEvents env a) = [a] := by
  simp only [chatGithubEvents]
  split <;> simp [fetchAttempts]

theorem chatGithubEvents_cancelCount (env : PollEnv) (a : Nat) :
    cancelCount (chatGithubEvents env a) = 0 := by
  simp only [chatGithubEvents]
  split <;> simp [cancelCount]

theorem flatMap_fetchAttempts (f : Nat → List PollEvent)
    (hf : ∀ a, fetchAttempts (f a) = [a]) :
    ∀ s n, fetchAttempts ((List.range' s n).flatMap f) = List.range' s n := by
  intro s n
  induction n generalizing s with
  | zero => simp [fetchAttempts]
  | succ n ih =>
    rw [List.range'_succ]
    simp only [List.flatMap_cons, fetchAttempts_append, hf, ih]
    rfl

/-! ## The shared polling skeleton: boundedness and trace shape -/

/-- The loop always finishes within its fuel once the fuel covers
`max_attempts`: from attempt `attempt`, at most `attempt + fuel`
iterations are needed (and at least one when the status is active). -/
theorem pollLoopFuel_isSome (iter : Nat → IterResult) (statusAt : Nat → RunStatus)
    (maxAttempts : Nat) :
    ∀ fuel attempt status, maxAttempts ≤ attempt + fuel → 1 ≤ fuel →
      (pollLoopFuel iter statusAt maxAttempts fuel attempt status).isSome := by
  intro fuel
  induction fuel with
  | zero => intro attempt status h h1; exact absurd h1 (by omega)
  | succ fuel ih =>
    intro attempt status h _
    simp only [pollLoopFuel]
    split
    · split
      · simp
      · split
        · simp
        · rename_i hactive hanom hmax
          have hrec := ih (attempt + 1) (statusAt (attempt + 1)) (by omega) (by omega)
          cases heq : pollLoopFuel iter statusAt maxAttempts fuel (attempt + 1)
              (statusAt (attempt + 1)) with
          | none => rw [heq] at hrec; simp at hrec
          | some r => simp [heq]
    · simp

/-- Structure of a finished loop run: the attempt counter only moves
forward, stays within `max_attempts` (when it started below it), and the
event trace is exactly the per-iteration bodies of attempts
`attempt+1, …, r.attempts` in order. -/
theorem pollLoopFuel_spec (iter : Nat → IterResult) (statusAt : Nat → RunStatus)
    (maxAttempts : Nat) :
    ∀ fuel attempt status r,
      pollLoopFuel iter statusAt maxAttempts fuel attempt status = some r →
      attempt ≤ r.attempts ∧
      (attempt < maxAttempts → r.attempts ≤ maxAttempts) ∧
      r.events = (List.range' (attempt + 1) (r.attempts - attempt)).flatMap
        (fun k => (iter k).events) := by
  intro fuel
  induction fuel with
  | zero =>
    intro attempt status r h
    simp only [pollLoopFuel] at h
    split at h
    · exact absurd h (by simp)
    · rw [Option.some.injEq] at h
      subst h
      refine ⟨Nat.le_refl _, fun hlt => Nat.le_of_lt hlt, ?_⟩
      simp
  | succ fuel ih =>
    intro attempt status r h
    simp only [pollLoopFuel] at h
    split at h
    · split at h
      · rw [Option.some.injEq] at h
        subst h
        refine ⟨Nat.le_succ attempt, fun hlt => show attempt + 1 ≤ maxAttempts by omega, ?_⟩
        show (iter (attempt + 1)).events =
          (List.range' (attempt + 1) (attempt + 1 - attempt)).flatMap
            (fun k => (iter k).events)
        have h1 : attempt + 1 - attempt = 1 := by omega
        simp [h1]
      · split at h
        · rw [Option.some.injEq] at h
          subst h
          refine ⟨Nat.le_succ attempt, fun hlt => show attempt + 1 ≤ maxAttempts by omega, ?_⟩
          show (iter (attempt + 1)).events =
            (List.range' (attempt + 1) (attempt + 1 - attempt)).flatMap
              (fun k => (iter k).events)
          have h1 : attempt + 1 - attempt = 1 := by omega
          simp [h1]
        · cases heq : pollLoopFuel iter statusAt maxAttempts fuel (attempt + 1)
              (statusAt (attempt + 1)) with
          | none => rw [heq] at h; simp at h
          | some r' =>
            rw [heq] at h
            simp only [Option.some.injEq] at h
            subst h
            obtain ⟨h1, h2, h3⟩ := ih (attempt + 1) (statusAt (attempt + 1)) r' heq
            rename_i hactive hanom hmax
            refine ⟨show attempt ≤ r'.attempts by omega,
              fun _ => show r'.attempts ≤ maxAttempts from h2 (by omega), ?_⟩
            show (iter (attempt + 1)).events ++ r'.events =
              (List.range' (attempt + 1) (r'.attempts - attempt)).flatMap
                (fun k => (iter k).events)
            rw [h3, show r'.attempts - attempt = (r'.attempts - (attempt + 1)) + 1
              from by omega, List.range'_succ, List.flatMap_cons]
    · rw [Option.some.injEq] at h
      subst h
      refine ⟨Nat.le_refl _, fun hlt => Nat.le_of_lt hlt, ?_⟩
      simp

/-! ## `wait_for_run_completion`: boundedness and trace shape -/

theorem chatGithubLoopFuel_isSome (env : PollEnv) (maxAttempts : Nat) :
    ∀ fuel attempt, maxAttempts ≤ attempt + fuel → 1 ≤ fuel →
      (chatGithubLoopFuel env maxAttempts fuel attempt).isSome := by
  intro fuel
  induction fuel with
  | zero => intro attempt h h1; exact absurd h1 (by omega)
  | succ fuel ih =>
    intro attempt h _
    simp only [chatGithubLoopFuel]
    split
    · simp
    · split
      · simp
      · rename_i hterm hmax
        have hrec := ih (attempt + 1) (by omega) (by omega)
        cases heq : chatGithubLoopFuel env maxAttempts fuel (attempt + 1) with
        | none => rw [heq] at hrec; simp at hrec
        | some r => simp [heq]

/-- Structure of a finished `wait_for_run_completion`: the attempt
counter strictly advances by one fetch per iteration, stays within
`max_attempts`, and the trace never contains a `runs.cancel` call. -/
theorem chatGithubLoopFuel_spec (env : PollEnv) (maxAttempts : Nat) :
    ∀ fuel attempt r, chatGithubLoopFuel env maxAttempts fuel attempt = some r →
      attempt < r.attempts ∧
      (attempt < maxAttempts → r.attempts ≤ maxAttempts) ∧
      fetchAttempts r.events = List.range' (attempt + 1) (r.attempts - attempt) ∧
      cancelCount r.events = 0 := by
  intro fuel
  induction fuel with
  | zero => intro attempt r h; exact absurd h (by simp [chatGithubLoopFuel])
  | succ fuel ih =>
    intro attempt r h
    simp only [chatGithubLoopFuel] at h
    split at h
    · rw [Option.some.injEq] at h
      subst h
      refine ⟨Nat.lt_succ_self attempt,
        fun hlt => show attempt + 1 ≤ maxAttempts by omega, ?_, ?_⟩
      · show fetchAttempts [PollEvent.getRun (attempt + 1)] =
          List.range' (attempt + 1) (attempt + 1 - attempt)
        have h1 : attempt + 1 - attempt = 1 := by omega
        simp [h1, fetchAttempts]
      · show cancelCount [PollEvent.getRun (attempt + 1)] = 0
        simp [cancelCount]
    · split at h
      · rw [Option.some.injEq] at h
        subst h
        refine ⟨Nat.lt_succ_self attempt,
          fun hlt => show attempt + 1 ≤ maxAttempts by omega, ?_, ?_⟩
        · show fetchAttempts (chatGithubEvents env (attempt + 1)) =
            List.range' (attempt + 1) (attempt + 1 - attempt)
          have h1 : attempt + 1 - attempt = 1 := by omega
          simp [h1, chatGithubEvents_fetchAttempts]
        · exact chatGithubEvents_cancelCount env (attempt + 1)
      · cases heq : chatGithubLoopFuel env maxAttempts fuel (attempt + 1) with
        | none => rw [heq] at h; simp at h
        | some r' =>
          rw [heq] at h
          simp only [Option.some.injEq] at h
          subst h
          obtain ⟨h1, h2, h3, h4⟩ := ih (attempt + 1) r' heq
          rename_i hterm hmax
          refine ⟨show attempt < r'.attempts by omega,
            fun _ => show r'.attempts ≤ maxAttempts from h2 (by omega), ?_, ?_⟩
          · show fetchAttempts (chatGithubEvents env (attempt + 1) ++ r'.events) =
              List.range' (attempt + 1) (r'.attempts - attempt)
            simp only [fetchAttempts_append, chatGithubEvents_fetchAttempts, h3]
            rw [show r'.attempts - attempt = (r'.attempts - (attempt + 1)) + 1
              from by omega, List.range'_succ]
            rfl
          · show cancelCount (chatGithubEvents env (attempt + 1) ++ r'.events) = 0
            simp only [cancelCount_append, chatGithubEvents_cancelCount, h4]

/-- A whole invocation of the shared skeleton with `max_attempts = M`,
`1 ≤ M`, starting at attempt 0: it finishes, within `M` iterations, and
fetches statuses at attempts `1, 2, …, attempts` exactly. -/
theorem pollInvocation_spec (iter : Nat → IterResult) (statusAt : Nat → RunStatus)
    (M : Nat) (hM : 1 ≤ M) (hiter : ∀ a, fetchAttempts (iter a).events = [a])
    (s0 : RunStatus) :
    (pollLoopFuel iter statusAt M M 0 s0).isSome ∧
    pollAttemptsOf (pollLoopFuel iter statusAt M M 0 s0) ≤ M ∧
    fetchAttempts (pollEventsOf (pollLoopFuel iter statusAt M M 0 s0)) =
      List.range' 1 (pollAttemptsOf (pollLoopFuel iter statusAt M M 0 s0)) := by
  have hsome := pollLoopFuel_isSome iter statusAt M M 0 s0 (by omega) (by omega)
  cases heq : pollLoopFuel iter statusAt M M 0 s0 with
  | none => rw [heq] at hsome; simp at hsome
  | some r =>
    obtain ⟨h1, h2, h3⟩ := pollLoopFuel_spec iter statusAt M M 0 s0 r heq
    refine ⟨by simp, ?_, ?_⟩
    · simpa [pollAttemptsOf] using h2 (by omega)
    · simp only [pollAttemptsOf, pollEventsOf]
      rw [h3]
      simpa using flatMap_fetchAttempts _ hiter 1 (r.attempts - 0)

/-- A whole invocation of `wait_for_run_completion` finishes within its
120 attempts, and fetches statuses at attempts `1, 2, …, attempts`
exactly. -/
theorem chatGithubInvocation_spec (env : PollEnv) :
    (wait_for_run_completion env).isSome ∧
    pollAttemptsOf (wait_for_run_completion env) ≤ 120 ∧
    fetchAttempts (pollEventsOf (wait_for_run_completion env)) =
      List.range' 1 (pollAttemptsOf (wait_for_run_completion env)) := by
  have hsome := chatGithubLoopFuel_isSome env 120 120 0 (by omega) (by omega)
  unfold wait_for_run_completion
  cases heq : chatGithubLoopFuel env 120 120 0 with
  | none => rw [heq] at hsome; simp at hsome
  | some r =>
    obtain ⟨h1, h2, h3, h4⟩ := chatGithubLoopFuel_spec env 120 120 0 r heq
    refine ⟨by simp, ?_, ?_⟩
    · simpa [pollAttemptsOf] using h2 (by omega)
    · simp only [pollAttemptsOf, pollEventsOf]
      simpa using h3

/-- C1: In every run-polling invocation of the four scripts — the shared
`while run.status in [...]` loop of `test-github-agent.py` /
`test-sql-agent.py` (instantiated as `testAgentPoll`) and
`chat-with-sql-agent.py` (`chatSqlPoll`), and `wait_for_run_completion`
of `chat-with-github-agent.py` — the attempt counter increases by
exactly 1 per iteration (the status fetches happen at attempts
`1, 2, …, attempts` in order) and the loop terminates after at most
`max_attempts` iterations (60 resp. 120), regardless of the sequence of
observed run statuses. -/
theorem C1_polling_bounded_unit_increments (env : PollEnv)
    (headers : List (String × String)) (s0 : RunStatus) :
    ((testAgentPoll env headers s0).isSome ∧
      pollAttemptsOf (testAgentPoll env headers s0) ≤ 60 ∧
      fetchAttempts (pollEventsOf (testAgentPoll env headers s0)) =
        List.range' 1 (pollAttemptsOf (testAgentPoll env headers s0))) ∧
    ((chatSqlPoll env headers s0).isSome ∧
      pollAttemptsOf (chatSqlPoll env headers s0) ≤ 60 ∧
      fetchAttempts (pollEventsOf (chatSqlPoll env headers s0)) =
        List.range' 1 (pollAttemptsOf (chatSqlPoll env headers s0))) ∧
    ((wait_for_run_completion env).isSome ∧
      pollAttemptsOf (wait_for_run_completion env) ≤ 120 ∧
      fetchAttempts (pollEventsOf (wait_for_run_completion env)) =
        List.range' 1 (pollAttemptsOf (wait_for_run_completion env))) :=
  ⟨pollInvocation_spec (testIter env headers) env.statusAt 60 (by omega)
      (testIter_fetchAttempts env headers) s0,
   pollInvocation_spec (chatSqlIter env headers) env.statusAt 60 (by omega)
      (chatSqlIter_fetchAttempts env headers) s0,
   chatGithubInvocation_spec env⟩

/-- When the status is never `requires_action`, the test-script body
never takes the cancel-and-break branch. -/
theorem testIter_anomaly_false (env : PollEnv) (headers : List (String × String))
    (a : Nat) (h : env.statusAt a ≠ RunStatus.requires_action) :
    (testIter env headers a).anomaly = false := by
  simp only [testIter]
  split
  · rename_i hc
    rw [Bool.and_eq_true, decide_eq_true_eq] at hc
    exact absurd hc.1 h
  · rfl

/-- When the status is never `requires_action`, the chat-with-sql body
never takes the cancel-and-break branch. -/
theorem chatSqlIter_anomaly_false (env : PollEnv) (headers : List (String × String))
    (a : Nat) (h : env.statusAt a ≠ RunStatus.requires_action) :
    (chatSqlIter env headers a).anomaly = false := by
  simp only [chatSqlIter]
  split
  · rename_i hc
    rw [Bool.and_eq_true, decide_eq_true_eq] at hc
    exact absurd hc.1 h
  · rfl

/-- Under an `in_progress`-forever environment, the shared skeleton runs
for exactly `max_attempts` iterations and exits through the timeout
branch with the last fetched (non-terminal) status. -/
theorem pollLoopFuel_timeout_of_in_progress (iter : Nat → IterResult)
    (statusAt : Nat → RunStatus) (maxAttempts : Nat)
    (hst : ∀ n, statusAt n = RunStatus.in_progress)
    (hanom : ∀ a, (iter a).anomaly = false) :
    ∀ fuel attempt, maxAttempts ≤ attempt + fuel → attempt < maxAttempts →
      pollExitOf (pollLoopFuel iter statusAt maxAttempts fuel attempt
          RunStatus.in_progress) = some PollExit.timeout ∧
      pollStatusOf (pollLoopFuel iter statusAt maxAttempts fuel attempt
          RunStatus.in_progress) = some RunStatus.in_progress ∧
      pollAttemptsOf (pollLoopFuel iter statusAt maxAttempts fuel attempt
          RunStatus.in_progress) = maxAttempts := by
  intro fuel
  induction fuel with
  | zero => intro attempt h hlt; exact absurd h (by omega)
  | succ fuel ih =>
    intro attempt h hlt
    simp only [pollLoopFuel]
    split
    · split
      · rename_i hano
        rw [hanom (attempt + 1)] at hano
        exact absurd hano (by simp)
      · split
        · rename_i hmax
          refine ⟨rfl, ?_, ?_⟩
          · show some (statusAt (attempt + 1)) = some RunStatus.in_progress
            rw [hst (attempt + 1)]
          · show attempt + 1 = maxAttempts
            omega
        · rename_i hano hmax
          have hrec := ih (attempt + 1) (by omega) (by omega)
          rw [hst (attempt + 1)]
          cases heq : pollLoopFuel iter statusAt maxAttempts fuel (attempt + 1)
              RunStatus.in_progress with
          | none => rw [heq] at hrec; simp [pollExitOf] at hrec
          | some r =>
            rw [heq] at hrec
            obtain ⟨t1, t2, t3⟩ := hrec
            simp only [pollExitOf, pollStatusOf, pollAttemptsOf] at t1 t2 t3 ⊢
            exact ⟨t1, t2, t3⟩
    · rename_i hin
      exact absurd (show isActive RunStatus.in_progress = true from rfl) hin

/-- Under an `in_progress`-forever environment, `wait_for_run_completion`
runs for exactly `max_attempts` iterations and exits through its final
timeout return with the last fetched (non-terminal) status. -/
theorem chatGithubLoopFuel_timeout_of_in_progress (env : PollEnv) (maxAttempts : Nat)
    (hst : ∀ n, env.statusAt n = RunStatus.in_progress) :
    ∀ fuel attempt, maxAttempts ≤ attempt + fuel → attempt < maxAttempts →
      pollExitOf (chatGithubLoopFuel env maxAttempts fuel attempt) =
        some PollExit.timeout ∧
      pollStatusOf (chatGithubLoopFuel env maxAttempts fuel attempt) =
        some RunStatus.in_progress ∧
      pollAttemptsOf (chatGithubLoopFuel env maxAttempts fuel attempt) =
        maxAttempts := by
  intro fuel
  induction fuel with
  | zero => intro attempt h hlt; exact absurd h (by omega)
  | succ fuel ih =>
    intro attempt h hlt
    have hterm : chatGithubTerminal env (attempt + 1) = false := by
      simp [chatGithubTerminal, hst (attempt + 1)]
    simp only [chatGithubLoopFuel]
    split
    · rename_i hc
      rw [hterm] at hc
      exact absurd hc (by simp)
    · split
      · rename_i hmax
        refine ⟨rfl, ?_, ?_⟩
        · show some (env.statusAt (attempt + 1)) = some RunStatus.in_progress
          rw [hst (attempt + 1)]
        · show attempt + 1 = maxAttempts
          omega
      · rename_i hc hmax
        have hrec := ih (attempt + 1) (by omega) (by omega)
        cases heq : chatGithubLoopFuel env maxAttempts fuel (attempt + 1) with
        | none => rw [heq] at hrec; simp [pollExitOf] at hrec
        | some r =>
          rw [heq] at hrec
          obtain ⟨t1, t2, t3⟩ := hrec
          simp only [pollExitOf, pollStatusOf, pollAttemptsOf] at t1 t2 t3 ⊢
          exact ⟨t1, t2, t3⟩

/-- C4: When the run status stays `in_progress` on every fetch, each of
the four polling loops gives up through its timeout branch: the exit is
the distinct `timeout` outcome (not the terminal-status exit), the final
status is `in_progress` — in particular neither `completed` nor
`failed` — and exactly `max_attempts` (60 resp. 120) attempts were
spent. -/
theorem C4_timeout_distinct_from_terminal (env : PollEnv)
    (headers : List (String × String))
    (h : ∀ n, env.statusAt n = RunStatus.in_progress) :
    (pollExitOf (testAgentPoll env headers RunStatus.in_progress) =
        some PollExit.timeout ∧
      pollStatusOf (testAgentPoll env headers RunStatus.in_progress) =
        some RunStatus.in_progress ∧
      pollAttemptsOf (testAgentPoll env headers RunStatus.in_progress) = 60) ∧
    (pollExitOf (chatSqlPoll env headers RunStatus.in_progress) =
        some PollExit.timeout ∧
      pollStatusOf (chatSqlPoll env headers RunStatus.in_progress) =
        some RunStatus.in_progress ∧
      pollAttemptsOf (chatSqlPoll env headers RunStatus.in_progress) = 60) ∧
    (pollExitOf (wait_for_run_completion env) = some PollExit.timeout ∧
      pollStatusOf (wait_for_run_completion env) = some RunStatus.in_progress ∧
      pollAttemptsOf (wait_for_run_completion env) = 120) ∧
    (RunStatus.in_progress ≠ RunStatus.completed ∧
      RunStatus.in_progress ≠ RunStatus.failed ∧
      PollExit.timeout ≠ PollExit.statusExit) :=
  ⟨pollLoopFuel_timeout_of_in_progress (testIter env headers) env.statusAt 60 h
      (fun a => testIter_anomaly_false env headers a (by rw [h a]; simp)) 60 0
      (by omega) (by omega),
   pollLoopFuel_timeout_of_in_progress (chatSqlIter env headers) env.statusAt 60 h
      (fun a => chatSqlIter_anomaly_false env headers a (by rw [h a]; simp)) 60 0
      (by omega) (by omega),
   chatGithubLoopFuel_timeout_of_in_progress env 120 h 120 0 (by omega) (by omega),
   by simp, by simp, by simp⟩

/-- The always-`in_progress` environment used to witness C4. -/
def inProgressEnv : PollEnv where
  statusAt _ := RunStatus.in_progress
  callsAt _ := []
  hasApprovalAction _ := false

/-- Witness for C4 at a concrete environment. -/
theorem C4_timeout_distinct_from_terminal_witness :
    (pollExitOf (testAgentPoll inProgressEnv [] RunStatus.in_progress) =
        some PollExit.timeout ∧
      pollStatusOf (testAgentPoll inProgressEnv [] RunStatus.in_progress) =
        some RunStatus.in_progress ∧
      pollAttemptsOf (testAgentPoll inProgressEnv [] RunStatus.in_progress) = 60) ∧
    (pollExitOf (chatSqlPoll inProgressEnv [] RunStatus.in_progress) =
        some PollExit.timeout ∧
      pollStatusOf (chatSqlPoll inProgressEnv [] RunStatus.in_progress) =
        some RunStatus.in_progress ∧
      pollAttemptsOf (chatSqlPoll inProgressEnv [] RunStatus.in_progress) = 60) ∧
    (pollExitOf (wait_for_run_completion inProgressEnv) = some PollExit.timeout ∧
      pollStatusOf (wait_for_run_completion inProgressEnv) =
        some RunStatus.in_progress ∧
      pollAttemptsOf (wait_for_run_completion inProgressEnv) = 120) ∧
    (RunStatus.in_progress ≠ RunStatus.completed ∧
      RunStatus.in_progress ≠ RunStatus.failed ∧
      PollExit.timeout ≠ PollExit.statusExit) :=
  C4_timeout_distinct_from_terminal inProgressEnv [] (fun _ => rfl)

/-- An environment whose first fetch is a `requires_action` episode
carrying one pending tool call that is not a `RequiredMcpToolCall`; the
second fetch reports the run completed. -/
def nonMcpCallEnv : PollEnv where
  statusAt n := if n = 1 then RunStatus.requires_action else RunStatus.completed
  callsAt n := if n = 1 then
      [{ id := "call-1", name := "lookup", arguments := "", isMcp := false }]
    else []
  hasApprovalAction _ := true

/-- C2 counterexample: a `requires_action` episode carries N = 1 pending
tool call, yet the test-script poller submits no approval batch at all —
the pending call is not a `RequiredMcpToolCall`, so the
`isinstance` filter of `test-github-agent.py:221` drops it and the
`if tool_approvals:` guard of `test-github-agent.py:236` skips the
submission.  The claim demands exactly one batch with exactly one
approval. -/
theorem C2_counterexample :
    nonMcpCallEnv.statusAt 1 = RunStatus.requires_action ∧
    nonMcpCallEnv.hasApprovalAction 1 = true ∧
    (nonMcpCallEnv.callsAt 1).length = 1 ∧
    submittedBatches (pollEventsOf
      (testAgentPoll nonMcpCallEnv [] RunStatus.queued)) = [] :=
  ⟨rfl, rfl, rfl, rfl⟩

/-- C2 amended: in a `requires_action` episode whose pending tool calls
are all `RequiredMcpToolCall`s (N ≥ 1 of them), the test-script body and
the chat-with-sql body each perform exactly one batch submission right
after the fetch, containing exactly one approval per pending call with
exactly the observed call ids (none fabricated or dropped); and every
finished loop trace is the concatenation of its per-iteration bodies, so
the batch sits between that fetch and the next.  (Pending calls of other
types are dropped by the test scripts — see the counterexample; the
chat-with-sql loop approves all pending calls regardless of type.) -/
theorem C2_amended_one_batch_per_mcp_episode (env : PollEnv)
    (headers : List (String × String)) (a : Nat)
    (hs : env.statusAt a = RunStatus.requires_action)
    (hact : env.hasApprovalAction a = true)
    (hne : env.callsAt a ≠ [])
    (hmcp : ∀ c ∈ env.callsAt a, c.isMcp = true) :
    (testIter env headers a).events =
      [PollEvent.getRun a, PollEvent.submitApprovals ((env.callsAt a).map
        (fun c => { toolCallId := c.id, approve := true, headers := headers }))] ∧
    (chatSqlIter env headers a).events =
      [PollEvent.getRun a, PollEvent.submitApprovals ((env.callsAt a).map
        (fun c => { toolCallId := c.id, approve := true, headers := headers }))] ∧
    ((env.callsAt a).map (fun c => (⟨c.id, true, headers⟩ : ToolApproval))).length =
      (env.callsAt a).length ∧
    ((env.callsAt a).map (fun c => (⟨c.id, true, headers⟩ : ToolApproval))).map
        ToolApproval.toolCallId = (env.callsAt a).map ToolCall.id ∧
    (∀ fuel s0 r,
      pollLoopFuel (testIter env headers) env.statusAt 60 fuel 0 s0 = some r →
        r.events = (List.range' 1 r.attempts).flatMap
          (fun k => (testIter env headers k).events)) ∧
    (∀ fuel s0 r,
      pollLoopFuel (chatSqlIter env headers) env.statusAt 60 fuel 0 s0 = some r →
        r.events = (List.range' 1 r.attempts).flatMap
          (fun k => (chatSqlIter env headers k).events)) := by
  have hfilter : (env.callsAt a).filter (fun c => c.isMcp) = env.callsAt a :=
    List.filter_eq_self.mpr hmcp
  refine ⟨?_, ?_, by simp, by simp, ?_, ?_⟩
  · simp [testIter, hs, hact, hfilter, hne]
  · simp [chatSqlIter, hs, hact, hne]
  · intro fuel s0 r h
    have h3 := (pollLoopFuel_spec (testIter env headers) env.statusAt 60
      fuel 0 s0 r h).2.2
    simpa using h3
  · intro fuel s0 r h
    have h3 := (pollLoopFuel_spec (chatSqlIter env headers) env.statusAt 60
      fuel 0 s0 r h).2.2
    simpa using h3

/-- The spec §8 scenario environment: fetches report `in_progress`, then
`requires_action` with two MCP tool calls, then `in_progress`, then
`completed`. -/
def mcpEpisodeEnv : PollEnv where
  statusAt n :=
    if n = 1 then RunStatus.in_progress
    else if n = 2 then RunStatus.requires_action
    else if n = 3 then RunStatus.in_progress
    else RunStatus.completed
  callsAt n :=
    if n = 2 then
      [{ id := "call-1", name := "search", arguments := "", isMcp := true },
       { id := "call-2", name := "fetch", arguments := "", isMcp := true }]
    else []
  hasApprovalAction _ := true

/-- Witness for the amended C2 at the spec §8 scenario environment. -/
theorem C2_amended_one_batch_per_mcp_episode_witness :
    (testIter mcpEpisodeEnv [("X-API-Key", "abc123")] 2).events =
      [PollEvent.getRun 2, PollEvent.submitApprovals ((mcpEpisodeEnv.callsAt 2).map
        (fun c => ⟨c.id, true, [("X-API-Key", "abc123")]⟩))] ∧
    (chatSqlIter mcpEpisodeEnv [("X-API-Key", "abc123")] 2).events =
      [PollEvent.getRun 2, PollEvent.submitApprovals ((mcpEpisodeEnv.callsAt 2).map
        (fun c => ⟨c.id, true, [("X-API-Key", "abc123")]⟩))] ∧
    ((mcpEpisodeEnv.callsAt 2).map
        (fun c => (⟨c.id, true, [("X-API-Key", "abc123")]⟩ : ToolApproval))).length =
      (mcpEpisodeEnv.callsAt 2).length ∧
    ((mcpEpisodeEnv.callsAt 2).map
        (fun c => (⟨c.id, true, [("X-API-Key", "abc123")]⟩ : ToolApproval))).map
        ToolApproval.toolCallId = (mcpEpisodeEnv.callsAt 2).map ToolCall.id :=
  have h := C2_amended_one_batch_per_mcp_episode mcpEpisodeEnv
    [("X-API-Key", "abc123")] 2 rfl rfl (by decide) (by decide)
  ⟨h.1, h.2.1, h.2.2.1, h.2.2.2.1⟩

/-- An environment in which every fetch reports `requires_action` with
an empty pending-tool-call set. -/
def emptyEpisodeEnv : PollEnv where
  statusAt _ := RunStatus.requires_action
  callsAt _ := []
  hasApprovalAction _ := true

set_option maxRecDepth 4000 in
/-- C3 counterexample: on a `requires_action` episode with zero pending
tool calls, `wait_for_run_completion` of `chat-with-github-agent.py`
never cancels the run (its trace contains no `runs.cancel` call at all —
it submits empty approval batches instead) and keeps polling the same
empty episode until its timeout return after all 120 attempts, rather
than returning a distinct anomaly result. -/
theorem C3_counterexample :
    emptyEpisodeEnv.statusAt 1 = RunStatus.requires_action ∧
    emptyEpisodeEnv.callsAt 1 = [] ∧
    cancelCount (pollEventsOf (wait_for_run_completion emptyEpisodeEnv)) = 0 ∧
    pollExitOf (wait_for_run_completion emptyEpisodeEnv) = some PollExit.timeout ∧
    pollAttemptsOf (wait_for_run_completion emptyEpisodeEnv) = 120 := by
  refine ⟨rfl, rfl, ?_, ?_, ?_⟩ <;> decide

/-- C3 amended: the three loops that test for an empty tool-call set
(`test-github-agent.py` / `test-sql-agent.py`, and
`chat-with-sql-agent.py`) do cancel the run and break out immediately on
an empty `requires_action` episode, exiting through the distinct
`anomalyCancel` outcome with a non-`completed` status;
`wait_for_run_completion` of `chat-with-github-agent.py` instead never
issues a cancel — it submits an empty approval batch and keeps looping —
but no loop ever polls such an episode indefinitely, since all are
bounded by `max_attempts`. -/
theorem C3_amended_empty_episode (env env2 : PollEnv)
    (headers : List (String × String)) (M fuel attempt : Nat) (status : RunStatus)
    (hs : env.statusAt (attempt + 1) = RunStatus.requires_action)
    (hact : env.hasApprovalAction (attempt + 1) = true)
    (hcalls : env.callsAt (attempt + 1) = [])
    (hactive : isActive status = true) :
    pollLoopFuel (testIter env headers) env.statusAt M (fuel + 1) attempt status =
      some { finalStatus := RunStatus.requires_action, attempts := attempt + 1,
             events := [PollEvent.getRun (attempt + 1), PollEvent.cancelRun],
             exitKind := PollExit.anomalyCancel } ∧
    pollLoopFuel (chatSqlIter env headers) env.statusAt M (fuel + 1) attempt status =
      some { finalStatus := RunStatus.requires_action, attempts := attempt + 1,
             events := [PollEvent.getRun (attempt + 1), PollEvent.cancelRun],
             exitKind := PollExit.anomalyCancel } ∧
    RunStatus.requires_action ≠ RunStatus.completed ∧
    (∀ fuel2 attempt2 r, chatGithubLoopFuel env2 120 fuel2 attempt2 = some r →
        cancelCount r.events = 0) ∧
    (wait_for_run_completion env2).isSome := by
  have h1 : testIter env headers (attempt + 1) =
      { events := [PollEvent.getRun (attempt + 1), PollEvent.cancelRun],
        anomaly := true } := by
    simp [testIter, hs, hact, hcalls]
  have h2 : chatSqlIter env headers (attempt + 1) =
      { events := [PollEvent.getRun (attempt + 1), PollEvent.cancelRun],
        anomaly := true } := by
    simp [chatSqlIter, hs, hact, hcalls]
  refine ⟨?_, ?_, by simp, ?_, (chatGithubInvocation_spec env2).1⟩
  · simp [pollLoopFuel, hactive, h1, hs]
  · simp [pollLoopFuel, hactive, h2, hs]
  · intro fuel2 attempt2 r h
    exact (chatGithubLoopFuel_spec env2 120 fuel2 attempt2 r h).2.2.2

/-- Witness for the amended C3 at the all-empty-episodes environment. -/
theorem C3_amended_empty_episode_witness :
    pollLoopFuel (testIter emptyEpisodeEnv []) emptyEpisodeEnv.statusAt 60 60 0
        RunStatus.queued =
      some { finalStatus := RunStatus.requires_action, attempts := 1,
             events := [PollEvent.getRun 1, PollEvent.cancelRun],
             exitKind := PollExit.anomalyCancel } ∧
    pollLoopFuel (chatSqlIter emptyEpisodeEnv []) emptyEpisodeEnv.statusAt 60 60 0
        RunStatus.queued =
      some { finalStatus := RunStatus.requires_action, attempts := 1,
             events := [PollEvent.getRun 1, PollEvent.cancelRun],
             exitKind := PollExit.anomalyCancel } ∧
    (wait_for_run_completion emptyEpisodeEnv).isSome :=
  have h := C3_amended_empty_episode emptyEpisodeEnv emptyEpisodeEnv [] 60 59 0
    RunStatus.queued rfl rfl rfl rfl
  ⟨h.1, h.2.1, h.2.2.2.2⟩

/-- A chat-with-sql configuration whose agent declares
`mcpServer.authType = "none"`. -/
def noneAuthChatCfg : ChatSqlCfg where
  authType := "none"
  keyVaultName := "kv-demo"
  apiKeySecretName := "mcp-api-key"

/-- C5 counterexample: with `authType = "none"`,
`chat-with-sql-agent.py` still performs a secret-store call — its
`secret_client.get_secret(...)` at line 135 runs unconditionally, never
consulting `authType` — so a secret-store call is not equivalent to
`authType = "apiKey"`. -/
theorem C5_counterexample :
    noneAuthChatCfg.authType = "none" ∧
    noneAuthChatCfg.authType ≠ "apiKey" ∧
    chatSqlVaultCalls noneAuthChatCfg = [("kv-demo", "mcp-api-key")] ∧
    chatSqlVaultCalls noneAuthChatCfg ≠ [] :=
  ⟨rfl, by decide, rfl, by decide⟩

/-- C5 amended: in `mcp-sql-agent.py` a Key Vault call occurs iff
`authType = "apiKey"` and a vault name is configured — in particular,
with `authType = "none"` no secret-store call occurs and no header is
set; `chat-with-sql-agent.py` performs the Key Vault call
unconditionally, regardless of `authType`.  Whenever the retrieved
secret value is `abc123`, the header set on the MCP tool is
`X-API-Key: abc123`. -/
theorem C5_amended_vault_iff_apiKey (cfg : SqlDeployCfg) (ccfg : ChatSqlCfg)
    (store : SecretStore) (v : String) :
    (sqlDeployVaultCalls cfg ≠ [] ↔
      cfg.authType = "apiKey" ∧ strTruthy cfg.keyVaultName = true) ∧
    (cfg.authType = "none" →
      sqlDeployVaultCalls cfg = [] ∧
      sqlDeployApiKey cfg store = Except.ok none ∧
      mcpHeadersAfterSetup none = []) ∧
    (cfg.authType = "apiKey" → cfg.keyVaultName = some v → v ≠ "" →
      store v (cfg.apiKeySecretName.getD "mcp-api-key") = Except.ok "abc123" →
      sqlDeployVaultCalls cfg = [(v, cfg.apiKeySecretName.getD "mcp-api-key")] ∧
      sqlDeployApiKey cfg store = Except.ok (some "abc123") ∧
      mcpHeadersAfterSetup (some "abc123") = [("X-API-Key", "abc123")]) ∧
    (chatSqlVaultCalls ccfg = [(ccfg.keyVaultName, ccfg.apiKeySecretName)]) ∧
    (store ccfg.keyVaultName ccfg.apiKeySecretName = Except.ok "abc123" →
      chatSqlApiKey ccfg store = Except.ok (some "abc123")) := by
  refine ⟨?_, ?_, ?_, rfl, ?_⟩
  · by_cases hA : cfg.authType = "apiKey"
    · cases hkv : cfg.keyVaultName with
      | none => simp [sqlDeployVaultCalls, strTruthy, hA, hkv]
      | some w =>
        by_cases hw : w = "" <;>
          simp [sqlDeployVaultCalls, strTruthy, hA, hkv, hw]
    · simp [sqlDeployVaultCalls, hA]
  · intro hn
    have hA : cfg.authType ≠ "apiKey" := by rw [hn]; decide
    refine ⟨?_, ?_, rfl⟩
    · simp [sqlDeployVaultCalls, hA]
    · simp [sqlDeployApiKey, hA]
  · intro hA hkv hw hstore
    refine ⟨?_, ?_, by decide⟩
    · simp [sqlDeployVaultCalls, hA, hkv, hw]
    · simp [sqlDeployApiKey, hA, hkv, hw, hstore]
  · intro hstore
    simp [chatSqlApiKey, hstore]

/-- A deploy-script configuration requesting API-key authentication. -/
def apiKeyDeployCfg : SqlDeployCfg where
  authType := "apiKey"
  keyVaultName := some "kv-demo"
  apiKeySecretName := some "mcp-api-key"

/-- A secret store holding `mcp-api-key = "abc123"` in vault `kv-demo`. -/
def demoStore : SecretStore := fun v s =>
  if v = "kv-demo" && s = "mcp-api-key" then Except.ok "abc123"
  else Except.error "secret not found"

/-- Witness for the amended C5 at concrete configurations and store. -/
theorem C5_amended_vault_iff_apiKey_witness :
    sqlDeployVaultCalls apiKeyDeployCfg = [("kv-demo", "mcp-api-key")] ∧
    sqlDeployApiKey apiKeyDeployCfg demoStore = Except.ok (some "abc123") ∧
    mcpHeadersAfterSetup (some "abc123") = [("X-API-Key", "abc123")] ∧
    chatSqlVaultCalls noneAuthChatCfg = [("kv-demo", "mcp-api-key")] ∧
    chatSqlApiKey noneAuthChatCfg demoStore = Except.ok (some "abc123") :=
  have h := C5_amended_vault_iff_apiKey apiKeyDeployCfg noneAuthChatCfg
    demoStore "kv-demo"
  have h3 := h.2.2.1 rfl rfl (by decide) rfl
  ⟨h3.1, h3.2.1, h3.2.2, h.2.2.2.1, h.2.2.2.2 rfl⟩

theorem testAgentExit_spec (configOk connectOk runExn : Bool)
    (agentFound : Option String) (scenarioStatuses : List RunStatus) :
    (testAgentExit configOk connectOk runExn agentFound scenarioStatuses = 0 ∨
      testAgentExit configOk connectOk runExn agentFound scenarioStatuses = 1) ∧
    (testAgentExit configOk connectOk runExn agentFound scenarioStatuses = 0 ↔
      configOk = true ∧ connectOk = true ∧ runExn = false ∧
        agentFound.isSome = true ∧
        ∀ s ∈ scenarioStatuses, s = RunStatus.completed) := by
  cases configOk <;> cases connectOk <;> cases runExn <;> cases agentFound <;>
    simp [testAgentExit]
  by_cases hall : ∀ x ∈ scenarioStatuses, x = RunStatus.completed
  · exact Or.inl hall
  · exact Or.inr (by push_neg at hall; exact hall)

theorem deployGithubExit_spec (configOk connectOk exn : Bool)
    (existingAgent : Option String) (updateReply : String) :
    (deployGithubExit configOk connectOk exn existingAgent updateReply = 0 ∨
      deployGithubExit configOk connectOk exn existingAgent updateReply = 1) ∧
    (deployGithubExit configOk connectOk exn existingAgent updateReply = 0 ↔
      configOk = true ∧ connectOk = true ∧ exn = false) := by
  cases configOk <;> cases connectOk <;> cases exn <;> cases existingAgent <;>
    simp [deployGithubExit]

theorem deploySqlExit_spec (configOk vaultOk connectOk exn : Bool)
    (authType : String) (existingAgent : Option String) (updateReply : String) :
    (deploySqlExit configOk authType vaultOk connectOk exn existingAgent
        updateReply = 0 ∨
      deploySqlExit configOk authType vaultOk connectOk exn existingAgent
        updateReply = 1) ∧
    (deploySqlExit configOk authType vaultOk connectOk exn existingAgent
        updateReply = 0 ↔
      configOk = true ∧ (authType = "apiKey" → vaultOk = true) ∧
        connectOk = true ∧ exn = false) := by
  by_cases hA : authType = "apiKey" <;>
    cases configOk <;> cases vaultOk <;> cases connectOk <;> cases exn <;>
      cases existingAgent <;> simp [deploySqlExit, hA]

theorem chatGithubExit_spec (configOk connectOk sessionExn : Bool)
    (agentFound : Option String) :
    (chatGithubExit configOk connectOk sessionExn agentFound = 0 ∨
      chatGithubExit configOk connectOk sessionExn agentFound = 1) ∧
    (chatGithubExit configOk connectOk sessionExn agentFound = 0 ↔
      configOk = true ∧ connectOk = true ∧ sessionExn = false ∧
        agentFound.isSome = true) := by
  cases configOk <;> cases connectOk <;> cases sessionExn <;> cases agentFound <;>
    simp [chatGithubExit]

theorem chatSqlExit_spec (configOk connectOk vaultOk sessionExn : Bool)
    (agentFound : Option String) :
    (chatSqlExit configOk connectOk agentFound vaultOk sessionExn = 0 ∨
      chatSqlExit configOk connectOk agentFound vaultOk sessionExn = 1) ∧
    (chatSqlExit configOk connectOk agentFound vaultOk sessionExn = 0 ↔
      configOk = true ∧ connectOk = true ∧ agentFound.isSome = true ∧
        vaultOk = true ∧ sessionExn = false) := by
  cases configOk <;> cases connectOk <;> cases vaultOk <;> cases sessionExn <;>
    cases agentFound <;> simp [chatSqlExit]

/-- C6: For every entry-point script, the process exit code is always
0 or 1, and it is 0 exactly on full success: in the test scripts, when
configuration, connection and lookup succeed, no exception escapes, and
every scenario's run completes; in the deploy scripts, when
configuration, (for the SQL agent, API-key retrieval if
`authType = "apiKey"`,) connection succeed and no exception escapes; in
the chat scripts, when configuration, connection, lookup (and for SQL
the vault retrieval) succeed and the session ends without an escaping
exception.  Every configuration, connection, lookup, or test-scenario
failure yields 1, uniformly across all six entry points. -/
theorem C6_exit_codes_uniform (configOk connectOk runExn exn sessionExn vaultOk : Bool)
    (agentFound existingAgent : Option String) (scenarioStatuses : List RunStatus)
    (authType updateReply : String) :
    ((testAgentExit configOk connectOk runExn agentFound scenarioStatuses = 0 ∨
       testAgentExit configOk connectOk runExn agentFound scenarioStatuses = 1) ∧
     (testAgentExit configOk connectOk runExn agentFound scenarioStatuses = 0 ↔
       configOk = true ∧ connectOk = true ∧ runExn = false ∧
         agentFound.isSome = true ∧
         ∀ s ∈ scenarioStatuses, s = RunStatus.completed)) ∧
    ((deployGithubExit configOk connectOk exn existingAgent updateReply = 0 ∨
       deployGithubExit configOk connectOk exn existingAgent updateReply = 1) ∧
     (deployGithubExit configOk connectOk exn existingAgent updateReply = 0 ↔
       configOk = true ∧ connectOk = true ∧ exn = false)) ∧
    ((deploySqlExit configOk authType vaultOk connectOk exn existingAgent
         updateReply = 0 ∨
       deploySqlExit configOk authType vaultOk connectOk exn existingAgent
         updateReply = 1) ∧
     (deploySqlExit configOk authType vaultOk connectOk exn existingAgent
         updateReply = 0 ↔
       configOk = true ∧ (authType = "apiKey" → vaultOk = true) ∧
         connectOk = true ∧ exn = false)) ∧
    ((chatGithubExit configOk connectOk sessionExn agentFound = 0 ∨
       chatGithubExit configOk connectOk sessionExn agentFound = 1) ∧
     (chatGithubExit configOk connectOk sessionExn agentFound = 0 ↔
       configOk = true ∧ connectOk = true ∧ sessionExn = false ∧
         agentFound.isSome = true)) ∧
    ((chatSqlExit configOk connectOk agentFound vaultOk sessionExn = 0 ∨
       chatSqlExit configOk connectOk agentFound vaultOk sessionExn = 1) ∧
     (chatSqlExit configOk connectOk agentFound vaultOk sessionExn = 0 ↔
       configOk = true ∧ connectOk = true ∧ agentFound.isSome = true ∧
         vaultOk = true ∧ sessionExn = false)) :=
  ⟨testAgentExit_spec configOk connectOk runExn agentFound scenarioStatuses,
   deployGithubExit_spec configOk connectOk exn existingAgent updateReply,
   deploySqlExit_spec configOk vaultOk connectOk exn authType existingAgent
     updateReply,
   chatGithubExit_spec configOk connectOk sessionExn agentFound,
   chatSqlExit_spec configOk connectOk vaultOk sessionExn agentFound⟩

/-- C7: entering `clear` in a chat session discards the current thread
reference and creates a new conversation thread: exactly one
`threads.create` call is made, the new current thread id is the freshly
issued one — distinct from the previous id, by the service's freshness
invariant `threadId < nextThreadId`, which the step preserves — the
session continues, and the next plain message is created against the
newly created thread id. -/
theorem C7_clear_starts_new_thread (st : ChatState)
    (hinv : st.threadId < st.nextThreadId) (next : String)
    (hne : pyStrip next ≠ "")
    (hq : pyLower (pyStrip next) ≠ "quit") (hx : pyLower (pyStrip next) ≠ "exit")
    (hb : pyLower (pyStrip next) ≠ "bye") (hh : pyLower (pyStrip next) ≠ "help")
    (hc : pyLower (pyStrip next) ≠ "clear") :
    (chatStep st "clear").state.threadId = st.nextThreadId ∧
    (chatStep st "clear").state.threadId ≠ st.threadId ∧
    (chatStep st "clear").events = [ChatEvent.threadCreate st.nextThreadId] ∧
    (chatStep st "clear").quit = false ∧
    (chatStep (chatStep st "clear").state next).events =
      [ChatEvent.messageCreate st.nextThreadId (pyStrip next),
       ChatEvent.runCreate st.nextThreadId] ∧
    (chatStep st "clear").state.threadId < (chatStep st "clear").state.nextThreadId := by
  have hclear : chatStep st "clear" =
      { state := { threadId := st.nextThreadId, nextThreadId := st.nextThreadId + 1,
                   messageCount := 0 },
        events := [ChatEvent.threadCreate st.nextThreadId], quit := false } := rfl
  rw [hclear]
  refine ⟨rfl, show st.nextThreadId ≠ st.threadId by omega, rfl, rfl, ?_,
    show st.nextThreadId < st.nextThreadId + 1 by omega⟩
  simp [chatStep, hne, hq, hx, hb, hh, hc]

/-- Witness for C7 at a concrete session state and follow-up message. -/
theorem C7_clear_starts_new_thread_witness :
    (chatStep { threadId := 0, nextThreadId := 1, messageCount := 3 } "clear").state.threadId = 1 ∧
    (chatStep { threadId := 0, nextThreadId := 1, messageCount := 3 } "clear").state.threadId ≠ 0 ∧
    (chatStep { threadId := 0, nextThreadId := 1, messageCount := 3 } "clear").events =
      [ChatEvent.threadCreate 1] ∧
    (chatStep { threadId := 0, nextThreadId := 1, messageCount := 3 } "clear").quit = false ∧
    (chatStep (chatStep { threadId := 0, nextThreadId := 1, messageCount := 3 } "clear").state
        "hello").events =
      [ChatEvent.messageCreate 1 (pyStrip "hello"), ChatEvent.runCreate 1] :=
  have h := C7_clear_starts_new_thread
    { threadId := 0, nextThreadId := 1, messageCount := 3 } (by decide) "hello"
    (by decide) (by decide) (by decide) (by decide) (by decide) (by decide)
  ⟨h.1, h.2.1, h.2.2.1, h.2.2.2.1, h.2.2.2.2.1⟩

/-- C8: agent lookup by name is a pure function of the listing — two
calls of `find_agent_by_name` against the same (unchanged by any create
or delete) listing return the same agent id, or `None` both times. -/
theorem C8_find_agent_idempotent (l₁ l₂ : Except String (List AgentInfo))
    (name : String) (h : l₁ = l₂) :
    find_agent_by_name l₁ name = find_agent_by_name l₂ name := by rw [h]

/-- Witness for C8 at a concrete listing. -/
theorem C8_find_agent_idempotent_witness :
    find_agent_by_name (Except.ok [{ id := "agent-1", name := "github-mcp-agent" }])
        "github-mcp-agent" =
      find_agent_by_name (Except.ok [{ id := "agent-1", name := "github-mcp-agent" }])
        "github-mcp-agent" :=
  C8_find_agent_idempotent _ _ "github-mcp-agent" rfl

theorem findAgentLoop_eq_find? (l : List AgentInfo) (n : String) :
    findAgentLoop l n = (l.find? (fun a => a.name = n)).map AgentInfo.id := by
  induction l with
  | nil => rfl
  | cons a rest ih =>
    by_cases h : a.name = n <;> simp [findAgentLoop, List.find?_cons, h, ih]

/-- C9: `find_agent_by_name` is total over its error cases: on a
successful listing it returns the id of the first agent whose name
equals the requested name, or `None` when no agent matches; when the
listing call raises, it returns `None` instead of propagating — the same
observable result as an empty listing, so callers cannot distinguish
"agent absent" from "listing failed". -/
theorem C9_find_agent_total_none_on_error :
    (∀ (e n : String), find_agent_by_name (Except.error e) n = none) ∧
    (∀ (l : List AgentInfo) (n : String),
        find_agent_by_name (Except.ok l) n =
          (l.find? (fun a => a.name = n)).map AgentInfo.id) ∧
    (∀ (e n : String),
        find_agent_by_name (Except.error e) n =
          find_agent_by_name (Except.ok []) n) :=
  ⟨fun _ _ => rfl, fun l n => findAgentLoop_eq_find? l n, fun _ _ => rfl⟩

/-- C10: a console line that is empty after stripping whitespace performs
no hosting-service action at all — no message, no run, no thread — and
leaves the chat state, in particular the current thread reference,
unchanged; the session continues to the next prompt. -/
theorem C10_empty_input_is_noop (st : ChatState) (line : String)
    (h : pyStrip line = "") :
    chatStep st line = { state := st, events := [], quit := false } := by
  simp [chatStep, h]

/-- Witness for C10 on a whitespace-only line. -/
theorem C10_empty_input_is_noop_witness :
    chatStep { threadId := 0, nextThreadId := 1, messageCount := 0 } "   " =
      { state := { threadId := 0, nextThreadId := 1, messageCount := 0 },
        events := [], quit := false } :=
  C10_empty_input_is_noop _ "   " (by decide)

end McpAgents
